import Mathlib

/-!
Verification development for the `awr` repository (Avilla/ricq backend).

The embedding covers:
* `src/python/awr/message.py` — the message-element builders `text`, `at`, `face`
  and the `Element` union type;
* `src/python/awr/avilla.py` — `AWRProtocol.__init__`, `AWRService.get_interface`
  and the two stages (`preparing`, `blocking`) of `AWRService.launch`.

Python's mutable object store is modelled by an explicit `Heap` mapping object
identifiers to insertion-ordered dictionaries, so that the shared mutable default
argument of `AWRProtocol.__init__` and the never-assigned `data_folder` instance
attribute are observable.  Fallible Python code is embedded in `Except PyErr`.
The blocking stage's `while not exit_mark.done(): await asyncio.wait(...)` loop
is embedded as a small-step machine driven by two environment traces: whether
the gathered session handles have all completed, and whether the shutdown
signal has fired.
-/

namespace AWR

/-! ## Errors raised by the embedded Python code -/

/-- Python exceptions that the embedded fragments can raise. -/
inductive PyErr where
  /-- Python `AttributeError` — an instance attribute that was never assigned is read. -/
  | attributeError (attr : String)
  /-- Python `TypeError` — raised by `AWRService.get_interface` on a foreign type. -/
  | typeError (msg : String)
  /-- A failure propagating out of `LoginMethod.login` (authentication,
  network, challenge timeout …). -/
  | loginError (code : Nat)
deriving DecidableEq, Repr

/-! ## `src/python/awr/message.py` -/

/-- Embeds `class Text(TypedDict)`: the `type` key is the literal `"text"`, so only the
payload key `text` is a field; the discriminant is recovered by `Element.tag`. -/
structure Text where
  text : String
deriving DecidableEq, Repr

/-- Embeds `class At(TypedDict)`: `type` is the literal `"at"`, payload key `target`. -/
structure At where
  target : Int
deriving DecidableEq, Repr

/-- Embeds `class Face(TypedDict)`: `type` is the literal `"face"`; both payload keys
`id` and `name` are present and optional (`int | None`, `str | None`). -/
structure Face where
  id : Option Int
  name : Option String
deriving DecidableEq, Repr

/-- Embeds `def text(text: str) -> Text: return {"type": "text", "text": text}`. -/
def text (s : String) : Text := { text := s }

/-- Embeds `def at(target: int) -> At: return {"type": "at", "target": target}`
(`at` is a Lean keyword, hence the trailing apostrophe). -/
def at' (target : Int) : At := { target := target }

/-- Embeds `def face(id_or_name: int | str) -> Face`: the `isinstance(id_or_name, int)`
branch fills `id` and leaves `name = None`; the other branch fills `name` and
leaves `id = None`. -/
def face (id_or_name : Int ⊕ String) : Face :=
  match id_or_name with
  | .inl i => { id := some i, name := none }
  | .inr s => { id := none, name := some s }

/-- The union `Element = str | Text | At | Face` — note it admits a bare `str`. -/
inductive Element where
  | ofStr (s : String)
  | ofText (t : Text)
  | ofAt (a : At)
  | ofFace (f : Face)
deriving DecidableEq, Repr

/-- The value of the `"type"` key of an element: the three `TypedDict` variants
carry their `Literal` discriminant, a bare `str` has no keys at all. -/
def Element.tag : Element → Option String
  | .ofStr _ => none
  | .ofText _ => some ("text")
  | .ofAt _ => some ("at")
  | .ofFace _ => some ("face")

/-! ## The Python object store

`AWRProtocol.accounts` is a `dict[int, LoginMethod]`, a mutable heap object.
Dictionaries are insertion-ordered, which `launch` relies on when iterating
`accounts.items()`. -/

/-- Modelled from the spec: `LoginMethod` is the closed variant
{Password, QrCode} implemented in the native `awr.awr` module, which is not
part of the Python sources; only its shape is needed here. -/
inductive LoginMethod where
  | password (secret : String)
  | qrcode
deriving DecidableEq, Repr

/-- The contents of one `dict[int, LoginMethod]`, in insertion order. -/
abbrev Dict := List (Int × LoginMethod)

/-- Assignment `d[k] = v` on an insertion-ordered dictionary: an existing key keeps its
position, a fresh key is appended. -/
def dictSet (d : Dict) (k : Int) (v : LoginMethod) : Dict :=
  match d with
  | [] => [(k, v)]
  | (k', v') :: rest =>
    if k' = k then (k, v) :: rest else (k', v') :: dictSet rest k v

/-- The Python object store: dictionary objects addressed by object id. -/
structure Heap where
  dicts : Nat → Dict
  next : Nat

/-- Object id of the dictionary literal `{}` that is the default value of the
`accounts` parameter of `AWRProtocol.__init__`; Python allocates it once, when
the `def` statement executes, and reuses it on every defaulted call. -/
def defaultAccountsRef : Nat := 0

/-- The store as it stands right after the module body ran: the shared default
`{}` is allocated at `defaultAccountsRef` and is empty. -/
def initialHeap : Heap :=
  { dicts := fun _ => [], next := 1 }

/-- Allocate a fresh dictionary object, returning the new store and its id. -/
def heapAlloc (h : Heap) (d : Dict) : Heap × Nat :=
  ({ dicts := fun i => if i = h.next then d else h.dicts i, next := h.next + 1 },
   h.next)

/-- Assignment `d[k] = v` performed on the heap object `r`. -/
def heapDictSet (h : Heap) (r : Nat) (k : Int) (v : LoginMethod) : Heap :=
  { h with dicts := fun i => if i = r then dictSet (h.dicts i) k v else h.dicts i }

/-! ## `AWRProtocol.__init__` -/

/-- The instance attributes of an `AWRProtocol` object.  `accounts` is a
reference into the heap; `data_folder` is `none` while the attribute has never
been assigned (reading it then raises `AttributeError` — the class-level
`data_folder: str` is a bare annotation and creates no attribute). -/
structure AWRProtocolObj where
  accounts : Nat
  data_folder : Option String
deriving DecidableEq, Repr

/-- Embeds `AWRProtocol.__init__(self, accounts={}, data_folder="./bots")`: the body is
exactly `self.accounts = accounts` — the `data_folder` parameter is dropped and
the attribute left unassigned.  Passing `none` for a parameter means the caller
omitted it: a defaulted `accounts` aliases the shared `defaultAccountsRef`. -/
def awrProtocolInit (accounts : Option Nat) (data_folder : Option String) :
    AWRProtocolObj :=
  let _unused_data_folder := data_folder.getD ("./bots")
  { accounts := accounts.getD defaultAccountsRef,
    data_folder := none }

/-! ## `AWRService` -/

/-- A running session task, as returned by `LoginMethod.login`.  Opaque at this
layer; a bare identifier suffices. -/
abbrev SessionHandle := Nat

/-- An interface type token passed to `AWRService.get_interface`; the `is not`
identity test only distinguishes the class object `AWRInterface` from every
other class. -/
inductive InterfaceType where
  | awrInterface
  | otherType (typeName : String)
deriving DecidableEq, Repr

/-- The instance state of an `AWRService`: `__init__` stores the protocol. -/
structure AWRService where
  protocol : AWRProtocolObj
deriving DecidableEq, Repr

/-- Embeds `AWRInterface.__init__`: it stores the service in `self.service`. -/
structure AWRInterface where
  service : AWRService
deriving DecidableEq, Repr

/-- Embeds `AWRService.get_interface`: `if interface_type is not AWRInterface: raise
TypeError(...)`, otherwise `return AWRInterface(self)`. -/
def AWRService.get_interface (s : AWRService) (t : InterfaceType) :
    Except PyErr AWRInterface :=
  if t ≠ InterfaceType.awrInterface then
    .error (.typeError ("不支持的接口类型"))
  else
    .ok { service := s }

/-! ## The `preparing` stage of `AWRService.launch`

```python
async with self.stage("preparing"):
    handles = []
    for uin, method in self.protocol.accounts.items():
        handle = await method.login(uin, self.protocol.data_folder)
        handles.append(handle)
```

`method.login` lives in the native module; it enters the model as an oracle
`loginFn` mapping `(uin, method, data_folder)` to a handle or an error.  The
function returns both the list of `login` calls actually issued (in order,
with the folder argument each received) and the outcome: the collected handles,
or the first exception, which aborts the loop and propagates. -/

/-- One step of the `for uin, method in ...` loop over the remaining items.
Each iteration first reads `self.protocol.data_folder`; if that attribute was
never assigned the read raises `AttributeError` before `login` is reached. -/
def preparingLoop (loginFn : Int → LoginMethod → String → Except PyErr SessionHandle)
    (data_folder : Option String) :
    List (Int × LoginMethod) →
    List (Int × LoginMethod × String) × Except PyErr (List SessionHandle)
  | [] => ([], .ok [])
  | (uin, method) :: rest =>
    match data_folder with
    | none => ([], .error (.attributeError ("data_folder")))
    | some d =>
      match loginFn uin method d with
      | .error e => ([(uin, method, d)], .error e)
      | .ok handle =>
        let (calls, res) := preparingLoop loginFn data_folder rest
        ((uin, method, d) :: calls,
         match res with
         | .ok handles => .ok (handle :: handles)
         | .error e => .error e)

/-- The whole `preparing` stage: iterate `self.protocol.accounts.items()` in
insertion order, reading the dictionary from the heap. -/
def launchPreparing (loginFn : Int → LoginMethod → String → Except PyErr SessionHandle)
    (h : Heap) (s : AWRService) :
    List (Int × LoginMethod × String) × Except PyErr (List SessionHandle) :=
  preparingLoop loginFn s.protocol.data_folder (h.dicts s.protocol.accounts)

/-! ## The `blocking` stage of `AWRService.launch`

```python
async with self.stage("blocking"):
    exit_mark = asyncio.create_task(manager.status.wait_for_sigexit())
    while not exit_mark.done():
        await asyncio.wait(
            [asyncio.gather(*handles), exit_mark],
            return_when=asyncio.FIRST_COMPLETED,
        )
```

Small-step embedding.  The environment supplies two traces over scheduler
steps: `hd n` — whether the gathered aggregate of session handles is complete
at step `n` (for an empty `handles` list the empty `gather` is complete at
once, so the trace is constantly `true`) — and `sig n` — whether
`wait_for_sigexit` has completed, i.e. `exit_mark.done()`.  The machine is at
`checking` when the loop condition is about to be evaluated, at `waiting`
while suspended inside `asyncio.wait`, and at `exited` once the `while` loop
has fallen through. -/

/-- Control point of the blocking-stage loop. -/
inductive Phase where
  | checking
  | waiting
  | exited
deriving DecidableEq, Repr

/-- One scheduler step of the blocking loop under inputs `hd` (all handles
complete) and `sig` (`exit_mark.done()`).  `asyncio.wait` with
`FIRST_COMPLETED` returns as soon as either the aggregate or `exit_mark` is
done; otherwise it stays suspended. -/
def stepBlocking (hd sig : Bool) : Phase → Phase
  | .checking => if sig then .exited else .waiting
  | .waiting => if hd || sig then .checking else .waiting
  | .exited => .exited

/-- The run of the blocking loop: phase after `n` scheduler steps, starting at
the loop-condition check. -/
def blockingRun (hd sig : Nat → Bool) : Nat → Phase
  | 0 => .checking
  | n + 1 => stepBlocking (hd n) (sig n) (blockingRun hd sig n)

/-- The aggregate-completion trace induced by per-handle completion traces:
`asyncio.gather(*handles)` is complete when every handle is.  For
`handles = []` this is constantly `true`. -/
def allDone (handles : List SessionHandle) (done : SessionHandle → Nat → Bool)
    (n : Nat) : Bool :=
  handles.all fun handle => done handle n

/-- Number of completed `asyncio.wait` calls (race iterations) among the first
`n` scheduler steps: a step counts when the machine is suspended in the wait
and at least one of the two futures is complete, so the wait returns. -/
def raceCount (hd sig : Nat → Bool) : Nat → Nat
  | 0 => 0
  | n + 1 =>
    raceCount hd sig n +
      (if blockingRun hd sig n = Phase.waiting ∧ (hd n || sig n) = true then 1 else 0)

/-! ## Effect-annotated message builders

Each builder from `message.py`, embedded with the Python object store threaded
through and its (absent) failure modes made explicit: every body is a single
dictionary display — plus one `isinstance` branch in `face` — so it touches no
store cell and can raise nothing. -/

/-- The builder `text` with the object store threaded through. -/
def textW (w : Heap) (s : String) : Heap × Except PyErr Text :=
  (w, .ok (text s))

/-- The builder `at` with the object store threaded through. -/
def atW (w : Heap) (target : Int) : Heap × Except PyErr At :=
  (w, .ok (at' target))

/-- The builder `face` with the object store threaded through. -/
def faceW (w : Heap) (x : Int ⊕ String) : Heap × Except PyErr Face :=
  (w, .ok (face x))

/-! ## Concrete fixtures used to instantiate the claims -/

/-- Login oracle of a two-account scenario: account 111 fails to authenticate,
any other account logs in with handle 7. -/
def scenarioLogin : Int → LoginMethod → String → Except PyErr SessionHandle :=
  fun uin _ _ => if uin = 111 then .error (.loginError 1) else .ok 7

/-- Store holding the dictionary `{111: Password("pw-a"), 222: Password("pw-b")}`
and the reference to it. -/
def scenarioAlloc : Heap × Nat :=
  heapAlloc initialHeap [(111, .password ("pw-a")), (222, .password ("pw-b"))]

/-- Store holding the dictionary `{12345: Password("pw")}` and its reference. -/
def singleAlloc : Heap × Nat :=
  heapAlloc initialHeap [(12345, .password ("pw"))]

/-- A sample service over a defaulted accounts mapping. -/
def sampleService : AWRService :=
  { protocol := awrProtocolInit none (some ("./bots")) }

/-! ## Helper lemmas about the blocking-stage machine -/

/-- Unfolding lemma for one step of the run. -/
theorem blockingRun_succ (hd sig : Nat → Bool) (n : Nat) :
    blockingRun hd sig (n + 1) = stepBlocking (hd n) (sig n) (blockingRun hd sig n) :=
  rfl

/-- Unfolding lemma for the race-iteration counter. -/
theorem raceCount_succ (hd sig : Nat → Bool) (n : Nat) :
    raceCount hd sig (n + 1) =
      raceCount hd sig n +
        (if blockingRun hd sig n = Phase.waiting ∧ (hd n || sig n) = true then 1 else 0) :=
  rfl

/-- While `exit_mark.done()` stays false the loop never falls through, whatever
the handles do. -/
theorem blockingRun_not_exited (hd sig : Nat → Bool) (hsig : ∀ n, sig n = false) :
    ∀ n, blockingRun hd sig n ≠ Phase.exited := by
  intro n
  induction n with
  | zero => simp [blockingRun]
  | succ k ih =>
    rw [blockingRun_succ]
    rcases h : blockingRun hd sig k with _ | _ | _
    · simp [stepBlocking, hsig k]
    · simp only [stepBlocking]
      split <;> simp
    · exact absurd h ih

/-- Once the signal has fired (and stays fired), the loop falls through within
two scheduler steps: the wait returns, the condition is re-checked, the loop
exits. -/
theorem blockingRun_exits_on_signal (hd sig : Nat → Bool) (T : Nat)
    (hsig : ∀ k, T ≤ k → sig k = true) :
    blockingRun hd sig (T + 2) = Phase.exited := by
  have hT : sig T = true := hsig T (Nat.le_refl T)
  have hT1 : sig (T + 1) = true := hsig (T + 1) (Nat.le_succ T)
  have e2 : T + 2 = (T + 1) + 1 := rfl
  rcases h : blockingRun hd sig T with _ | _ | _
  · have h1 : blockingRun hd sig (T + 1) = Phase.exited := by
      rw [blockingRun_succ, h]
      simp [stepBlocking, hT]
    rw [e2, blockingRun_succ, h1]
    rfl
  · have h1 : blockingRun hd sig (T + 1) = Phase.checking := by
      rw [blockingRun_succ, h]
      simp [stepBlocking, hT]
    rw [e2, blockingRun_succ, h1]
    simp [stepBlocking, hT1]
  · have h1 : blockingRun hd sig (T + 1) = Phase.exited := by
      rw [blockingRun_succ, h]
      rfl
    rw [e2, blockingRun_succ, h1]
    rfl

/-- With the aggregate of handles complete and the signal unset, the machine
ping-pongs between the loop condition and an immediately-returning wait: after
`2 * n` steps it has completed `n` race iterations and is still running. -/
theorem blockingRun_spin_pattern (n : Nat) :
    blockingRun (fun _ => true) (fun _ => false) (2 * n) = Phase.checking ∧
    blockingRun (fun _ => true) (fun _ => false) (2 * n + 1) = Phase.waiting ∧
    raceCount (fun _ => true) (fun _ => false) (2 * n) = n := by
  induction n with
  | zero =>
    refine ⟨rfl, ?_, rfl⟩
    rw [show 2 * 0 + 1 = 0 + 1 from rfl, blockingRun_succ]
    rfl
  | succ k ih =>
    obtain ⟨hc, hw, hr⟩ := ih
    have e1 : 2 * (k + 1) = (2 * k + 1) + 1 := by omega
    have e2 : 2 * (k + 1) + 1 = ((2 * k + 1) + 1) + 1 := by omega
    have hnext : blockingRun (fun _ => true) (fun _ => false) ((2 * k + 1) + 1) =
        Phase.checking := by
      rw [blockingRun_succ, hw]
      rfl
    refine ⟨by rw [e1]; exact hnext, ?_, ?_⟩
    · rw [e2, blockingRun_succ, hnext]
      rfl
    · rw [e1, raceCount_succ, raceCount_succ]
      simp [hc, hw, hr]

/-! ## Claim theorems -/

/-- Claim C1: for every configured accounts mapping, the blocking stage of
`AWRService.launch` terminates exactly on the shutdown signal.  If the signal
never fires the loop never reaches `exited` — in particular even when every
session handle has completed, the race loop re-enters — and once the signal
holds from step `T` on, the stage is exited by step `T + 2`. -/
theorem blocking_stage_ends_iff_shutdown_signal :
    (∀ (handles : List SessionHandle) (done : SessionHandle → Nat → Bool)
        (sig : Nat → Bool), (∀ n, sig n = false) →
        ∀ n, blockingRun (allDone handles done) sig n ≠ Phase.exited) ∧
    (∀ (handles : List SessionHandle) (done : SessionHandle → Nat → Bool)
        (sig : Nat → Bool) (T : Nat), (∀ k, T ≤ k → sig k = true) →
        blockingRun (allDone handles done) sig (T + 2) = Phase.exited) :=
  ⟨fun handles done sig hs n => blockingRun_not_exited (allDone handles done) sig hs n,
   fun handles done sig T hs => blockingRun_exits_on_signal (allDone handles done) sig T hs⟩

/-- Witness for C1: one completed handle, signal never fires — still running
after six steps; signal fired from the start — exited after two steps. -/
theorem blocking_stage_ends_iff_shutdown_signal_witness :
    blockingRun (allDone [5] fun _ _ => true) (fun _ => false) 6 ≠ Phase.exited ∧
    blockingRun (allDone [5] fun _ _ => true) (fun _ => true) 2 = Phase.exited :=
  ⟨blocking_stage_ends_iff_shutdown_signal.1 [5] (fun _ _ => true) (fun _ => false)
      (fun _ => rfl) 6,
   blocking_stage_ends_iff_shutdown_signal.2 [5] (fun _ _ => true) (fun _ => true) 0
      (fun _ _ => rfl)⟩

/-- Claim C2 evaluated on the code: with every session handle already complete
and the shutdown signal unset, the blocking loop performs an unbounded number
of race iterations — for every bound `B` the loop has completed more than `B`
immediately-returning `asyncio.wait` calls after `2 * (B + 1)` steps and is
still not exited.  The code therefore busy-waits; it neither waits on the
signal alone nor applies a backoff. -/
theorem blocking_stage_busy_wait_unbounded (B : Nat) :
    B < raceCount (fun _ => true) (fun _ => false) (2 * (B + 1)) ∧
    blockingRun (fun _ => true) (fun _ => false) (2 * (B + 1)) ≠ Phase.exited := by
  obtain ⟨hc, _, hr⟩ := blockingRun_spin_pattern (B + 1)
  refine ⟨by omega, ?_⟩
  rw [hc]
  simp

/-- Claim C10: with an empty accounts mapping the preparing stage issues no
login call and returns normally (so the blocking stage is entered with an
empty handle list), and the blocking stage over the empty aggregate — whose
`asyncio.gather()` is complete at once — still ends exactly on the shutdown
signal. -/
theorem launch_empty_accounts_blocks_until_signal
    (loginFn : Int → LoginMethod → String → Except PyErr SessionHandle)
    (h : Heap) (s : AWRService)
    (hempty : h.dicts s.protocol.accounts = []) :
    launchPreparing loginFn h s = ([], .ok []) ∧
    (∀ (done : SessionHandle → Nat → Bool) (sig : Nat → Bool),
        (∀ n, sig n = false) →
        ∀ n, blockingRun (allDone [] done) sig n ≠ Phase.exited) ∧
    (∀ (done : SessionHandle → Nat → Bool) (sig : Nat → Bool) (T : Nat),
        (∀ k, T ≤ k → sig k = true) →
        blockingRun (allDone [] done) sig (T + 2) = Phase.exited) := by
  refine ⟨?_, fun done sig hs n => blockingRun_not_exited (allDone [] done) sig hs n,
    fun done sig T hs => blockingRun_exits_on_signal (allDone [] done) sig T hs⟩
  unfold launchPreparing
  rw [hempty]
  rfl

/-- Witness for C10: a service over a defaulted (empty) accounts dict in the
initial store. -/
theorem launch_empty_accounts_blocks_until_signal_witness :
    launchPreparing (fun _ _ _ => .ok 0) initialHeap
        { protocol := awrProtocolInit none (some ("./bots")) } = ([], .ok []) ∧
    blockingRun (allDone [] fun _ _ => true) (fun _ => false) 5 ≠ Phase.exited ∧
    blockingRun (allDone [] fun _ _ => true) (fun _ => true) 2 = Phase.exited := by
  have g := launch_empty_accounts_blocks_until_signal (fun _ _ _ => .ok 0) initialHeap
    { protocol := awrProtocolInit none (some ("./bots")) } rfl
  exact ⟨g.1, g.2.1 _ _ (fun _ => rfl) 5, g.2.2 _ _ 0 (fun _ _ => rfl)⟩

/-! ## Helper lemmas about the preparing loop and the dictionary model -/

/-- Given a readable folder, the preparing loop stops at the first failing
login: the calls issued are the successful prefix followed by the failing
call, and the error propagates. -/
theorem preparingLoop_first_failure
    (loginFn : Int → LoginMethod → String → Except PyErr SessionHandle)
    (d : String) (pre post : List (Int × LoginMethod)) (uin : Int)
    (m : LoginMethod) (e : PyErr)
    (hpre : ∀ p ∈ pre, ∃ hdl, loginFn p.1 p.2 d = .ok hdl)
    (hfail : loginFn uin m d = .error e) :
    preparingLoop loginFn (some d) (pre ++ (uin, m) :: post) =
      (pre.map (fun p => (p.1, p.2, d)) ++ [(uin, m, d)], .error e) := by
  induction pre with
  | nil => simp [preparingLoop, hfail]
  | cons a rest ih =>
    obtain ⟨auin, am⟩ := a
    obtain ⟨hdl, ha⟩ := hpre (auin, am) (List.mem_cons_self _ rest)
    have ih' := ih fun p hp => hpre p (List.mem_cons_of_mem _ hp)
    simp [preparingLoop, ha, ih']

/-- Given a readable folder and an always-succeeding login oracle, the
preparing loop issues one call per account, in order, and collects the
handles in order. -/
theorem preparingLoop_all_ok
    (loginOk : Int → LoginMethod → String → SessionHandle) (d : String)
    (accounts : List (Int × LoginMethod)) :
    preparingLoop (fun u mth f => .ok (loginOk u mth f)) (some d) accounts =
      (accounts.map (fun p => (p.1, p.2, d)),
       .ok (accounts.map fun p => loginOk p.1 p.2 d)) := by
  induction accounts with
  | nil => rfl
  | cons a rest ih =>
    obtain ⟨auin, am⟩ := a
    simp [preparingLoop, ih]

/-- Dictionary assignment never empties a dictionary. -/
theorem dictSet_ne_nil (d : Dict) (k : Int) (v : LoginMethod) : dictSet d k v ≠ [] := by
  cases d with
  | nil => simp [dictSet]
  | cons a rest =>
    obtain ⟨k', v'⟩ := a
    simp only [dictSet]
    split <;> simp

/-! ## Claim theorems for the preparing stage and the protocol object -/

/-- Claim C3 as stated fails on the code: with accounts
`{111: Password("pw-a"), 222: Password("pw-b")}` and a login oracle failing on
account 111, the claim demands that the login of 111 be attempted and its
failure propagate; the code instead raises `AttributeError` reading the
never-assigned `self.protocol.data_folder` and issues no login call at all. -/
theorem preparing_claim_counterexample :
    launchPreparing scenarioLogin scenarioAlloc.1
        { protocol := awrProtocolInit (some scenarioAlloc.2) (some ("./bots")) } =
      ([], .error (.attributeError ("data_folder"))) ∧
    launchPreparing scenarioLogin scenarioAlloc.1
        { protocol := awrProtocolInit (some scenarioAlloc.2) (some ("./bots")) } ≠
      ([(111, .password ("pw-a"), "./bots")], .error (.loginError 1)) := by
  refine ⟨rfl, ?_⟩
  intro hcontra
  rw [show launchPreparing scenarioLogin scenarioAlloc.1
      { protocol := awrProtocolInit (some scenarioAlloc.2) (some ("./bots")) } =
      ([], .error (.attributeError ("data_folder"))) from rfl] at hcontra
  simp at hcontra

/-- Claim C3 amended: provided the `data_folder` attribute of the protocol is
set (`__init__` drops its `data_folder` argument, so launch on an
`AWRProtocol` as constructed raises `AttributeError` first — see the
counterexample), the preparing loop processes the accounts dictionary in the
order supplied, awaiting each login before starting the next: at the first
failing login it stops — the calls issued are exactly the successful prefix
followed by the failing call — and that error propagates; when every login
succeeds it issues exactly one call per account, in order, collecting the
handles in order.  The embedding contains no logout operation: logins that
already succeeded are not rolled back. -/
theorem preparing_sequential_first_failure_aborts :
    (∀ (loginFn : Int → LoginMethod → String → Except PyErr SessionHandle)
        (d : String) (pre post : List (Int × LoginMethod)) (uin : Int)
        (m : LoginMethod) (e : PyErr),
        (∀ p ∈ pre, ∃ hdl, loginFn p.1 p.2 d = .ok hdl) →
        loginFn uin m d = .error e →
        preparingLoop loginFn (some d) (pre ++ (uin, m) :: post) =
          (pre.map (fun p => (p.1, p.2, d)) ++ [(uin, m, d)], .error e)) ∧
    (∀ (loginOk : Int → LoginMethod → String → SessionHandle) (d : String)
        (accounts : List (Int × LoginMethod)),
        preparingLoop (fun u mth f => .ok (loginOk u mth f)) (some d) accounts =
          (accounts.map (fun p => (p.1, p.2, d)),
           .ok (accounts.map fun p => loginOk p.1 p.2 d))) :=
  ⟨fun loginFn d pre post uin m e hpre hfail =>
      preparingLoop_first_failure loginFn d pre post uin m e hpre hfail,
   fun loginOk d accounts => preparingLoop_all_ok loginOk d accounts⟩

/-- Witness for the amended C3: under `scenarioLogin` the loop over
`[222, 111, 333]` logs 222 in, fails on 111, never reaches 333; with an
always-succeeding oracle every account is processed in order. -/
theorem preparing_sequential_first_failure_aborts_witness :
    preparingLoop scenarioLogin (some ("./bots"))
        [(222, .password ("pw-b")), (111, .password ("pw-a")), (333, .qrcode)] =
      ([(222, .password ("pw-b"), "./bots"), (111, .password ("pw-a"), "./bots")],
       .error (.loginError 1)) ∧
    preparingLoop (fun _ _ _ => .ok 9) (some ("./bots"))
        [(1, .password ("x")), (2, .qrcode)] =
      ([(1, .password ("x"), "./bots"), (2, .qrcode, "./bots")], .ok [9, 9]) := by
  constructor
  · exact preparing_sequential_first_failure_aborts.1 scenarioLogin "./bots"
      [(222, .password ("pw-b"))] [(333, .qrcode)] 111 (.password ("pw-a"))
      (.loginError 1)
      (by
        intro p hp
        simp only [List.mem_singleton] at hp
        subst hp
        exact ⟨7, rfl⟩)
      rfl
  · exact preparing_sequential_first_failure_aborts.2 (fun _ _ _ => 9) "./bots"
      [(1, .password ("x")), (2, .qrcode)]

/-- Claim C4 on the code: `AWRProtocol.__init__` discards its `data_folder`
argument, leaving the attribute unassigned, so for every nonempty accounts
dictionary the launch raises `AttributeError` on reading
`self.protocol.data_folder` and calls no login at all — in particular no
login ever receives the directory supplied to the constructor. -/
theorem launch_data_folder_never_assigned
    (loginFn : Int → LoginMethod → String → Except PyErr SessionHandle)
    (h : Heap) (aRef : Nat) (folderArg : Option String)
    (hne : h.dicts aRef ≠ []) :
    (awrProtocolInit (some aRef) folderArg).data_folder = none ∧
    launchPreparing loginFn h { protocol := awrProtocolInit (some aRef) folderArg } =
      ([], .error (.attributeError ("data_folder"))) := by
  refine ⟨rfl, ?_⟩
  have hfold : launchPreparing loginFn h
      { protocol := awrProtocolInit (some aRef) folderArg } =
      preparingLoop loginFn none (h.dicts aRef) := rfl
  rw [hfold]
  rcases hd : h.dicts aRef with _ | ⟨⟨uin, m⟩, rest⟩
  · exact absurd hd hne
  · rfl

/-- Witness for C4: the single-account store `{12345: Password("pw")}` with
`data_folder="./bots"` supplied to the constructor. -/
theorem launch_data_folder_never_assigned_witness :
    (awrProtocolInit (some singleAlloc.2) (some ("./bots"))).data_folder = none ∧
    launchPreparing (fun _ _ _ => .ok 3) singleAlloc.1
        { protocol := awrProtocolInit (some singleAlloc.2) (some ("./bots")) } =
      ([], .error (.attributeError ("data_folder"))) :=
  launch_data_folder_never_assigned (fun _ _ _ => .ok 3) singleAlloc.1 singleAlloc.2
    (some ("./bots")) (by decide)

/-- Claim C5: `get_interface` raises exactly for interface types other than
`AWRInterface` (the `is not` identity test), and on `AWRInterface` returns,
without raising, an interface whose `service` field is the service it was
called on. -/
theorem get_interface_only_awrinterface (s : AWRService) (t : InterfaceType) :
    ((∃ e, s.get_interface t = .error e) ↔ t ≠ InterfaceType.awrInterface) ∧
    s.get_interface InterfaceType.awrInterface = .ok { service := s } := by
  constructor
  · cases t with
    | awrInterface => simp [AWRService.get_interface]
    | otherType nm => simp [AWRService.get_interface]
  · rfl

/-- Witness for C5: a foreign interface type is refused, `AWRInterface` is
served with the very service. -/
theorem get_interface_only_awrinterface_witness :
    (∃ e, sampleService.get_interface (InterfaceType.otherType ("AiohttpService")) =
      .error e) ∧
    sampleService.get_interface InterfaceType.awrInterface =
      .ok { service := sampleService } :=
  ⟨(get_interface_only_awrinterface sampleService
      (InterfaceType.otherType ("AiohttpService"))).1.mpr (by decide),
   (get_interface_only_awrinterface sampleService
      (InterfaceType.otherType ("AiohttpService"))).2⟩

/-! ## Claim theorems for the message model -/

/-- Claim C6 as stated fails on the code: `Element = str | Text | At | Face`
also admits a bare string, which carries no `type` discriminant — the element
built from the string "hi" has no tag. -/
theorem element_tag_claim_counterexample :
    ¬ ∀ e : Element, ∃ tg, Element.tag e = some tg ∧
        (tg = "text" ∨ tg = "at" ∨ tg = "face") := by
  intro hall
  obtain ⟨tg, htg, _⟩ := hall (Element.ofStr ("hi"))
  simp [Element.tag] at htg

/-- Claim C6 amended: every value admitted by `Element` is either a bare
string (no discriminant) or a tagged record with `type` in {text, at, face}
and the corresponding payload — a `Text` record (string field `text`), an
`At` record (integer field `target`), or a `Face` record (optional fields
`id` and `name`). -/
theorem element_tag_or_bare_str (e : Element) :
    (∃ s, e = Element.ofStr s ∧ Element.tag e = none) ∨
    (∃ t, e = Element.ofText t ∧ Element.tag e = some ("text")) ∨
    (∃ a, e = Element.ofAt a ∧ Element.tag e = some ("at")) ∨
    (∃ f, e = Element.ofFace f ∧ Element.tag e = some ("face")) := by
  cases e with
  | ofStr s => exact Or.inl ⟨s, rfl, rfl⟩
  | ofText t => exact Or.inr (Or.inl ⟨t, rfl, rfl⟩)
  | ofAt a => exact Or.inr (Or.inr (Or.inl ⟨a, rfl, rfl⟩))
  | ofFace f => exact Or.inr (Or.inr (Or.inr ⟨f, rfl, rfl⟩))

/-- Claim C7: `face` fills exactly one of `id` and `name`: an integer argument
yields `id` set to it and `name` absent, a string argument yields `name` set
to it and `id` absent; in every case exactly one of the two is present. -/
theorem face_exactly_one_of_id_name :
    (∀ i : Int, face (.inl i) = { id := some i, name := none }) ∧
    (∀ s : String, face (.inr s) = { id := none, name := some s }) ∧
    (∀ x, ((face x).id.isSome = true ∧ (face x).name = none) ∨
        ((face x).id = none ∧ (face x).name.isSome = true)) := by
  refine ⟨fun i => rfl, fun s => rfl, fun x => ?_⟩
  cases x with
  | inl i => exact Or.inl ⟨rfl, rfl⟩
  | inr s => exact Or.inr ⟨rfl, rfl⟩

/-- Claim C8: the builders, with the object store threaded through, leave the
store untouched, never raise, and return a value depending only on the
argument — identical across calls and across store states; in particular
`at` returns a record for every integer target, with no existence check. -/
theorem message_builders_pure :
    (∀ w s, (textW w s).1 = w ∧ (textW w s).2 = .ok { text := s }) ∧
    (∀ w₁ w₂ s, (textW w₁ s).2 = (textW w₂ s).2) ∧
    (∀ w target, (atW w target).1 = w ∧ (atW w target).2 = .ok { target := target }) ∧
    (∀ w₁ w₂ target, (atW w₁ target).2 = (atW w₂ target).2) ∧
    (∀ w x, (faceW w x).1 = w ∧ (faceW w x).2 = .ok (face x)) ∧
    (∀ w₁ w₂ x, (faceW w₁ x).2 = (faceW w₂ x).2) :=
  ⟨fun _ _ => ⟨rfl, rfl⟩, fun _ _ _ => rfl, fun _ _ => ⟨rfl, rfl⟩, fun _ _ _ => rfl,
   fun _ _ => ⟨rfl, rfl⟩, fun _ _ _ => rfl⟩

/-- Claim C9: every `AWRProtocol` constructed without an `accounts` argument
aliases the single dictionary object allocated for the `{}` default when the
`def` of `__init__` executed.  Adding an account through one such instance is
observed by every other instance constructed without the argument: from the
fresh store the other instance reads exactly the inserted entry, and from an
arbitrary store its mapping is nonempty after the insertion. -/
theorem default_accounts_mapping_shared (h : Heap) (k : Int) (v : LoginMethod) :
    (awrProtocolInit none (some ("./bots"))).accounts =
      (awrProtocolInit none none).accounts ∧
    (heapDictSet initialHeap (awrProtocolInit none (some ("./bots"))).accounts k v).dicts
      (awrProtocolInit none none).accounts = [(k, v)] ∧
    (heapDictSet h (awrProtocolInit none (some ("./bots"))).accounts k v).dicts
      (awrProtocolInit none none).accounts ≠ [] := by
  refine ⟨rfl, rfl, ?_⟩
  have hfold : (heapDictSet h (awrProtocolInit none (some ("./bots"))).accounts k v).dicts
      (awrProtocolInit none none).accounts = dictSet (h.dicts defaultAccountsRef) k v :=
    rfl
  rw [hfold]
  exact dictSet_ne_nil _ k v

end AWR
